import Mathlib

/-!
Verification of the `aws-profile-switcher` repository against its
natural-language specification.

The development shallowly embeds the parts of the code the claims are
about:

* `aws_profile_manager/api/session_manager.py` (`SessionManager`): the
  ambient process environment is modelled by `Env` (the four AWS
  variables, `none` = unset), the Flask session plus the manager's
  instance/app attributes by `SMState`, and the methods
  `load_session_credentials` (the `before_request` hook),
  `cleanup_after_request`, `set_assumed_credentials`,
  `clear_assumed_credentials`, `get_session_info` and
  `is_session_expired` by state-passing functions.  Timestamps are
  modelled as integer seconds since the epoch (`datetime` comparison on
  aware datetimes is comparison of instants; `timedelta(minutes=5)` is
  300 seconds).

* `aws_profile_manager/aws/environments.py` and
  `aws_profile_manager/aws/credentials.py` /
  `aws_profile_manager/roles/assume_role.py`: the configparser-backed
  `~/.aws/config` and `~/.aws/credentials` files are modelled as ordered
  section lists (`ConfigFile`), a missing file as `none`, and the
  registry of environments (a JSON object, insertion ordered) as an
  association list.
-/

namespace AwsProfileSwitcher

/-- Value of one environment variable: `none` means the variable is unset
(`'VAR' in os.environ` is false). -/
abbrev EnvVal := Option String

/-- The four AWS-related ambient environment variables manipulated by the
session manager and the STS-client builder. -/
structure Env where
  accessKey : EnvVal
  secretKey : EnvVal
  sessionToken : EnvVal
  profile : EnvVal
deriving Repr, DecidableEq

/-- Python truthiness of `os.environ.get(var)`: `None` and the empty
string are falsy, every other string is truthy. -/
def truthy : EnvVal → Bool
  | none => false
  | some s => !s.isEmpty

/-- Temporary credentials stored in the Flask session under
`assumed_credentials`.  `expiration` is the parsed `Expiration` instant
in seconds since the epoch. -/
structure Creds where
  accessKeyId : String
  secretAccessKey : String
  sessionToken : String
  expiration : Int
deriving Repr, DecidableEq

/-- State of a `SessionManager` together with the Flask session and the
ambient environment:
`sessionCreds`/`sessionRole` are `session['assumed_credentials']` and
`session['assumed_role']`; `appOrigProfile` is `app._original_aws_profile`
(`none` = attribute absent, i.e. `hasattr` is false); `origCredentials`
is `self._original_credentials` (`None` or a snapshot of the four
variables). -/
structure SMState where
  env : Env
  sessionCreds : Option Creds
  sessionRole : Option String
  appOrigProfile : Option String
  origCredentials : Option Env
deriving Repr, DecidableEq

/-- The grace buffer of `timedelta(minutes=5)` in seconds. -/
def graceSeconds : Int := 300

/-- The `before_request` hook `load_session_credentials`: when assumed
credentials are in the session, clear them if
`now > expiration - 5 minutes`, otherwise export them into the
environment and delete `AWS_PROFILE` (remembering it in
`app._original_aws_profile` the first time); when no (live) assumed
credentials remain, ensure `AWS_PROFILE` is set, defaulting to
`"default"`. -/
def loadSessionCredentials (now : Int) (s : SMState) : SMState :=
  match s.sessionCreds with
  | some c =>
    if now > c.expiration - graceSeconds then
      let s1 := { s with sessionCreds := none, sessionRole := none }
      if s1.env.profile = none then
        { s1 with env := { s1.env with profile := some "default" } }
      else s1
    else
      let env1 := { s.env with
        accessKey := some c.accessKeyId
        secretKey := some c.secretAccessKey
        sessionToken := some c.sessionToken }
      match env1.profile with
      | some p =>
        let appOrig := match s.appOrigProfile with
          | none => some p
          | some q => some q
        { s with env := { env1 with profile := none }, appOrigProfile := appOrig }
      | none => { s with env := env1 }
  | none =>
    if s.env.profile = none then
      { s with env := { s.env with profile := some "default" } }
    else s

/-- The `after_request` hook `cleanup_after_request`: restore
`AWS_PROFILE` from `app._original_aws_profile` when no session
credentials are active and no original credentials were stored. -/
def cleanupAfterRequest (s : SMState) : SMState :=
  match s.sessionCreds, s.appOrigProfile, s.origCredentials with
  | none, some p, none =>
    if s.env.profile = none then
      { s with env := { s.env with profile := some p } }
    else s
  | _, _, _ => s

/-- The method `set_assumed_credentials`: snapshot the four ambient
variables into `_original_credentials` only when none is stored yet and
the snapshot holds a (truthy) profile or a (truthy) access-key/secret
pair; store credentials and role in the session; remember `AWS_PROFILE`
in `app._original_aws_profile` when it is present and not remembered
yet. -/
def setAssumedCredentials (c : Creds) (role : String) (s : SMState) : SMState :=
  let origCreds :=
    match s.origCredentials with
    | some oc => some oc
    | none =>
      if truthy s.env.profile || (truthy s.env.accessKey && truthy s.env.secretKey) then
        some s.env
      else
        none
  let appOrig :=
    match s.env.profile, s.appOrigProfile with
    | some p, none => some p
    | _, _ => s.appOrigProfile
  { s with sessionCreds := some c, sessionRole := some role,
           origCredentials := origCreds, appOrigProfile := appOrig }

/-- Restoration of one environment variable from a stored snapshot entry:
the value is written back only when it is not `None`. -/
def restoreVar (saved current : EnvVal) : EnvVal :=
  match saved with
  | some v => some v
  | none => current

/-- The method `clear_assumed_credentials`: pop the session entries,
delete the three credential variables, write back every non-`None` entry
of `_original_credentials` when one is stored, then force `AWS_PROFILE`
to `app._original_aws_profile` when that attribute exists, else to
`"default"` when unset.  `_original_credentials` itself is left as it
was. -/
def clearAssumedCredentials (s : SMState) : SMState :=
  let env0 := { s.env with accessKey := none, secretKey := none, sessionToken := none }
  let env1 :=
    match s.origCredentials with
    | some oc =>
      { accessKey := restoreVar oc.accessKey env0.accessKey
        secretKey := restoreVar oc.secretKey env0.secretKey
        sessionToken := restoreVar oc.sessionToken env0.sessionToken
        profile := restoreVar oc.profile env0.profile : Env }
    | none => env0
  let env2 :=
    match s.appOrigProfile with
    | some p => { env1 with profile := some p }
    | none =>
      if env1.profile = none then { env1 with profile := some "default" } else env1
  { s with sessionCreds := none, sessionRole := none, env := env2 }

/-- Result of `get_session_info`. -/
structure SessionInfo where
  active : Bool
  assumedRole : Option String
  credentialsExpire : Option Int
deriving Repr, DecidableEq

/-- The method `get_session_info`: reports `session_credentials_active`
exactly when `assumed_credentials` is in the session. -/
def getSessionInfo (s : SMState) : SessionInfo :=
  match s.sessionCreds with
  | none => { active := false, assumedRole := none, credentialsExpire := none }
  | some c => { active := true, assumedRole := s.sessionRole, credentialsExpire := some c.expiration }

/-- The method `is_session_expired`: `False` without session credentials,
otherwise `now > expiration - 5 minutes`. -/
def isSessionExpired (now : Int) (s : SMState) : Bool :=
  match s.sessionCreds with
  | none => false
  | some c => now > c.expiration - graceSeconds

/-- Events acting on a `SessionManager`: an incoming request at a given
instant (running both request hooks), a call of
`set_assumed_credentials`, or a call of `clear_assumed_credentials`. -/
inductive Event where
  | request (now : Int)
  | beginSession (c : Creds) (role : String)
  | endSession
deriving Repr, DecidableEq

/-- Whether an event is a new credential assumption. -/
def Event.isBegin : Event → Bool
  | .beginSession _ _ => true
  | _ => false

/-- One event step of the session state machine. -/
def step (s : SMState) (e : Event) : SMState :=
  match e with
  | .request now => cleanupAfterRequest (loadSessionCredentials now s)
  | .beginSession c role => setAssumedCredentials c role s
  | .endSession => clearAssumedCredentials s

/-- State of a freshly constructed `SessionManager` in ambient
environment `e`: nothing in the session, no app attribute, no snapshot. -/
def initState (e : Env) : SMState :=
  { env := e, sessionCreds := none, sessionRole := none,
    appOrigProfile := none, origCredentials := none }

/-! Model of the configparser-backed files `~/.aws/config` and
`~/.aws/credentials`: an ordered list of sections, each an ordered list
of options.  `configparser.set` updates an existing option in place or
appends it; `add_section` appends a fresh empty section;
`remove_section` deletes it.  A missing file is `none`. -/

/-- An INI file as configparser holds it: insertion-ordered sections,
each with insertion-ordered options. -/
abbrev ConfigFile := List (String × List (String × String))

/-- Whether an option key is present in a section
(`key in section`). -/
def hasOpt (opts : List (String × String)) (k : String) : Bool :=
  opts.any (fun p => p.1 == k)

/-- Option lookup with a default (`section.get(key, dflt)`). -/
def getOpt (opts : List (String × String)) (k dflt : String) : String :=
  match opts.find? (fun p => p.1 == k) with
  | some p => p.2
  | none => dflt

/-- `configparser.set` on one section: overwrite the option in place or
append it at the end. -/
def setOpt (opts : List (String × String)) (k v : String) : List (String × String) :=
  match opts with
  | [] => [(k, v)]
  | (k0, v0) :: rest =>
    if k0 == k then (k, v) :: rest else (k0, v0) :: setOpt rest k v

/-- Whether the file has a section of the given name
(`config.has_section`). -/
def hasSection (cf : ConfigFile) (name : String) : Bool :=
  cf.any (fun sec => sec.1 == name)

/-- Options of the named section, when present. -/
def getSection (cf : ConfigFile) (name : String) : Option (List (String × String)) :=
  match cf.find? (fun sec => sec.1 == name) with
  | some sec => some sec.2
  | none => none

/-- `config.add_section` guarded by `has_section`, the pattern every
caller in the code uses. -/
def addSectionIfAbsent (cf : ConfigFile) (name : String) : ConfigFile :=
  if hasSection cf name then cf else cf ++ [(name, [])]

/-- `config.set(name, k, v)` on the file: update the (first) section of
that name.  All callers in the code add the section first. -/
def setOptInFile (cf : ConfigFile) (name k v : String) : ConfigFile :=
  match cf with
  | [] => []
  | (n, opts) :: rest =>
    if n == name then (n, setOpt opts k v) :: rest
    else (n, opts) :: setOptInFile rest name k v

/-- `config.remove_section`. -/
def removeSection (cf : ConfigFile) (name : String) : ConfigFile :=
  cf.filter (fun sec => !(sec.1 == name))

/-! Model of `EnvironmentManager` (`aws/environments.py`).  The registry
`config_manager.get_environments()` is a JSON object, insertion ordered,
each record carrying at least `role_arn` and `region`; any further keys
of a record are irrelevant to switching and are kept abstract in
`extra`. -/

/-- One record of the environment registry. -/
structure EnvConfig where
  roleArn : String
  region : String
  description : String
  extra : List (String × String)
deriving Repr, DecidableEq

/-- The environment registry (`config['environments']`), insertion
ordered. -/
abbrev Registry := List (String × EnvConfig)

/-- Registry lookup (`environments[env_name]` after the membership
test). -/
def lookupEnv (reg : Registry) (name : String) : Option EnvConfig :=
  match reg.find? (fun p => p.1 == name) with
  | some p => some p.2
  | none => none

/-- The method `switch_environment`: `False` (store untouched) when the
name is not in the registry; otherwise write `role_arn`/`region` from
the record and the constants `source_profile = "infrrd-master"`,
`duration_seconds = "3600"` into `[profile default]` (creating file and
section as needed), drop every other `profile ` section, and report
`True`. -/
def switchEnvironment (reg : Registry) (name : String) (store : Option ConfigFile) :
    Bool × Option ConfigFile :=
  match lookupEnv reg name with
  | none => (false, store)
  | some envc =>
    let cf0 := store.getD []
    let cf1 := addSectionIfAbsent cf0 "profile default"
    let cf2 := setOptInFile cf1 "profile default" "role_arn" envc.roleArn
    let cf3 := setOptInFile cf2 "profile default" "region" envc.region
    let cf4 := setOptInFile cf3 "profile default" "source_profile" "infrrd-master"
    let cf5 := setOptInFile cf4 "profile default" "duration_seconds" "3600"
    let cf6 := cf5.filter
      (fun sec => !(sec.1.startsWith "profile " && sec.1 != "profile default"))
    (true, some cf6)

/-- The method `get_current_environment`: `None` when the file or the
`[profile default]` section is missing; otherwise the first registry
entry whose `role_arn` and `region` both equal the section's values
(missing options read as the empty string), else `None`. -/
def getCurrentEnvironment (reg : Registry) (store : Option ConfigFile) : Option String :=
  match store with
  | none => none
  | some cf =>
    match getSection cf "profile default" with
    | none => none
    | some opts =>
      let curArn := getOpt opts "role_arn" ""
      let curRegion := getOpt opts "region" ""
      match reg.find? (fun p => p.2.roleArn == curArn && p.2.region == curRegion) with
      | some p => some p.1
      | none => none

/-! Model of `AWSCredentialsManager.save_credentials`,
`AWSCredentialsManager.remove_profile` (`aws/credentials.py`) and
`AWSRoleManager._get_credentials_from_file` (`roles/assume_role.py`). -/

/-- Credential fields read back from the credentials file. -/
structure FileCreds where
  accessKeyId : String
  secretAccessKey : String
  sessionToken : Option String
deriving Repr, DecidableEq

/-- Python truthiness of the `session_token` argument of
`save_credentials` (`None` or empty string are falsy). -/
def tokenTruthy : Option String → Bool
  | none => false
  | some t => !t.isEmpty

/-- The method `save_credentials`: read the existing file (or start
empty), create the section if absent, set access key and secret key,
set a session token only when one was supplied truthy, write back, and
report `True`. -/
def saveCredentials (store : Option ConfigFile) (name accessKey secretKey : String)
    (tok : Option String) : Bool × Option ConfigFile :=
  let cf0 := store.getD []
  let cf1 := addSectionIfAbsent cf0 name
  let cf2 := setOptInFile cf1 name "aws_access_key_id" accessKey
  let cf3 := setOptInFile cf2 name "aws_secret_access_key" secretKey
  let cf4 :=
    match tok with
    | some t => if t.isEmpty then cf3 else setOptInFile cf3 name "aws_session_token" t
    | none => cf3
  (true, some cf4)

/-- The method `_get_credentials_from_file`: `None` when the file or the
section is missing or the section lacks key or secret; otherwise the
key/secret pair plus the session token when stored.  When a session
token is stored, the code probes STS (`get_caller_identity`) and
returns `None` if that external call reports the token expired;
`stsReportsExpired` is that external outcome. -/
def getCredentialsFromFile (stsReportsExpired : Bool) (store : Option ConfigFile)
    (name : String) : Option FileCreds :=
  match store with
  | none => none
  | some cf =>
    match getSection cf name with
    | none => none
    | some opts =>
      if hasOpt opts "aws_access_key_id" && hasOpt opts "aws_secret_access_key" then
        if hasOpt opts "aws_session_token" then
          if stsReportsExpired then none
          else
            some { accessKeyId := getOpt opts "aws_access_key_id" ""
                   secretAccessKey := getOpt opts "aws_secret_access_key" ""
                   sessionToken := some (getOpt opts "aws_session_token" "") }
        else
          some { accessKeyId := getOpt opts "aws_access_key_id" ""
                 secretAccessKey := getOpt opts "aws_secret_access_key" ""
                 sessionToken := none }
      else none

/-- The method `remove_profile`: `True` when the file does not exist;
otherwise remove the section and write back when it is present; `True`
in every case (only an I/O exception yields `False`, which the pure
model cannot raise). -/
def removeProfile (store : Option ConfigFile) (name : String) : Bool × Option ConfigFile :=
  match store with
  | none => (true, none)
  | some cf =>
    if hasSection cf name then (true, some (removeSection cf name))
    else (true, some cf)

/-! Model of `AWSRoleManager._create_sts_client` (`roles/assume_role.py`),
restricted to its effect on the four ambient variables: record the
present ones in `old_env`, delete them, run the body (which reads
configuration and talks to STS but never writes `os.environ`), and in a
`finally` block write every recorded variable back — whether the body
returned a client, returned `None` from the `except` branch, or not. -/

/-- The environment after the deletion loop of `_create_sts_client`. -/
def clearedEnv : Env :=
  { accessKey := none, secretKey := none, sessionToken := none, profile := none }

/-- Run of `_create_sts_client` on environment `e`; `succeeds` is the
outcome of the try body (client built or exception caught).  The result
pairs the returned value with the environment after the `finally`
block, which restores exactly the variables recorded in `old_env`. -/
def createStsClientRun (e : Env) (succeeds : Bool) : Option Unit × Env :=
  let result : Option Unit := if succeeds then some () else none
  let restored : Env :=
    { accessKey := restoreVar e.accessKey clearedEnv.accessKey
      secretKey := restoreVar e.secretKey clearedEnv.secretKey
      sessionToken := restoreVar e.sessionToken clearedEnv.sessionToken
      profile := restoreVar e.profile clearedEnv.profile }
  (result, restored)

/-- Whether the stored profile already carries an `aws_session_token`
option (before a save). -/
def hasStoredToken (store : Option ConfigFile) (name : String) : Bool :=
  match store with
  | none => false
  | some cf =>
    match getSection cf name with
    | none => false
    | some opts => hasOpt opts "aws_session_token"

/-! Concrete fixtures used in witnesses and counterexamples. -/

/-- The empty ambient context: none of the four variables set. -/
def emptyEnv : Env := { accessKey := none, secretKey := none, sessionToken := none, profile := none }

/-- A context holding an access key, a session token and a profile. -/
def envP : Env := { accessKey := some "K", secretKey := none, sessionToken := some "T", profile := some "p" }

/-- A second ambient context, with a different profile. -/
def envQ : Env := { accessKey := none, secretKey := none, sessionToken := none, profile := some "q" }

/-- Assumed credentials expiring at instant 300. -/
def cW : Creds := { accessKeyId := "AKA", secretAccessKey := "SA", sessionToken := "TA", expiration := 300 }

/-- A second set of assumed credentials. -/
def cX : Creds := { accessKeyId := "AKB", secretAccessKey := "SB", sessionToken := "TB", expiration := 9000 }

/-- A session state holding `cW` with a base profile in the ambient
environment. -/
def sW : SMState :=
  { env := { accessKey := none, secretKey := none, sessionToken := none, profile := some "base" },
    sessionCreds := some cW, sessionRole := some "role",
    appOrigProfile := none, origCredentials := none }

/-- Registry record of the `dev` environment, with an extra key that
switching must ignore. -/
def envcDev : EnvConfig :=
  { roleArn := "arn-dev", region := "us-east-1", description := "dev env",
    extra := [("owner", "ops")] }

/-- Registry record of the `prod` environment. -/
def envcProd : EnvConfig :=
  { roleArn := "arn-prod", region := "eu-west-1", description := "", extra := [] }

/-- A two-environment registry. -/
def regW : Registry := [("dev", envcDev), ("prod", envcProd)]

/-- An existing AWS config file with a conflicting profile section and an
unrelated section. -/
def cfW : ConfigFile := [("profile other", [("role_arn", "zzz")]), ("mysec", [("a", "b")])]

/-! Helper lemmas about the session state machine. -/

@[simp]
theorem restoreVar_none (x : EnvVal) : restoreVar x none = x := by
  cases x <;> rfl

@[simp]
theorem restoreVar_some (v : String) (c : EnvVal) : restoreVar (some v) c = some v := rfl

theorem clear_sessionCreds (s : SMState) :
    (clearAssumedCredentials s).sessionCreds = none := rfl

theorem cleanup_sessionCreds (s : SMState) :
    (cleanupAfterRequest s).sessionCreds = s.sessionCreds := by
  unfold cleanupAfterRequest
  split
  · split <;> rfl
  · rfl

theorem load_clears_of_expired (now : Int) (s : SMState) (c : Creds)
    (hc : s.sessionCreds = some c) (hexp : now > c.expiration - graceSeconds) :
    (loadSessionCredentials now s).sessionCreds = none := by
  unfold loadSessionCredentials
  rw [hc]
  simp only [if_pos hexp]
  split <;> rfl

theorem load_keeps_of_not_expired (now : Int) (s : SMState) (c : Creds)
    (hc : s.sessionCreds = some c) (hexp : ¬ now > c.expiration - graceSeconds) :
    (loadSessionCredentials now s).sessionCreds = some c := by
  unfold loadSessionCredentials
  rw [hc]
  simp only [if_neg hexp]
  split <;> simp [hc]

theorem load_none (now : Int) (s : SMState) (h : s.sessionCreds = none) :
    (loadSessionCredentials now s).sessionCreds = none := by
  simp only [loadSessionCredentials, h]
  split
  · rfl
  · exact h

theorem step_no_creds (s : SMState) (e : Event) (h : s.sessionCreds = none)
    (hb : e.isBegin = false) : (step s e).sessionCreds = none := by
  cases e with
  | request now => rw [step, cleanup_sessionCreds]; exact load_none now s h
  | beginSession c role => simp [Event.isBegin] at hb
  | endSession => exact clear_sessionCreds s

theorem foldl_step_no_creds (evs : List Event) (s : SMState) (h : s.sessionCreds = none)
    (hb : evs.all (fun e => !e.isBegin) = true) :
    (evs.foldl step s).sessionCreds = none := by
  induction evs generalizing s with
  | nil => exact h
  | cons e rest ih =>
    rw [List.all_cons, Bool.and_eq_true] at hb
    exact ih (step s e) (step_no_creds s e h (by simpa using hb.1)) hb.2

/-! Claim C1. -/

/-- C1 (amended): once a request-time check sees
`now > expiration - 5 minutes` (strictly), the check clears the session
credentials, and after any further events that contain no new
`set_assumed_credentials`, `get_session_info` still reports
`active = false`. -/
theorem c1_expiry_monotonic (s : SMState) (c : Creds) (now : Int) (evs : List Event)
    (hc : s.sessionCreds = some c)
    (hexp : now > c.expiration - graceSeconds)
    (hnb : evs.all (fun e => !e.isBegin) = true) :
    (getSessionInfo (evs.foldl step (loadSessionCredentials now s))).active = false := by
  have h1 := load_clears_of_expired now s c hc hexp
  have h2 := foldl_step_no_creds evs _ h1 hnb
  simp [getSessionInfo, h2]

/-- C1 witness: concrete run of the amended theorem. -/
theorem c1_expiry_monotonic_witness :
    (getSessionInfo ([Event.request 400, Event.endSession].foldl step
      (loadSessionCredentials 1 sW))).active = false :=
  c1_expiry_monotonic sW cW 1 [Event.request 400, Event.endSession] rfl (by decide) (by decide)

/-- C1 counterexample: at the boundary instant `now = expiration - 5 min`
the condition `now >= expiration - grace` of the claim holds, yet the
per-request check does not clear the credentials and `get_session_info`
still reports `active = true`. -/
theorem c1_boundary_still_active :
    (0 : Int) ≥ cW.expiration - graceSeconds ∧
    (getSessionInfo (loadSessionCredentials 0 sW)).active = true := by
  constructor
  · decide
  · decide

/-! Claim C2. -/

/-- C2 counterexample: starting from the empty ambient context, after
`set_assumed_credentials(A)`, `set_assumed_credentials(B)`,
`clear_assumed_credentials()`, the ambient context is not the original
one: no snapshot is taken (the empty context has neither a profile nor
a key pair), and the release path forces `AWS_PROFILE = "default"`. -/
theorem c2_empty_context_not_restored :
    (clearAssumedCredentials (setAssumedCredentials cX "rb"
        (setAssumedCredentials cW "ra" (initState emptyEnv)))).env ≠ emptyEnv ∧
    (clearAssumedCredentials (setAssumedCredentials cX "rb"
        (setAssumedCredentials cW "ra" (initState emptyEnv)))).env.profile = some "default" ∧
    emptyEnv.profile = none := by
  refine ⟨?_, by decide, by decide⟩
  decide

/-- C2 (amended): for every starting ambient context whose `AWS_PROFILE`
is set to a non-empty value, `beginSession(A)` then `beginSession(B)`
then `endSession()` restores exactly the pre-A context, and the snapshot
is captured at the first assumption and not overwritten by the
second. -/
theorem c2_double_assume_release_restores (e : Env) (hp : truthy e.profile = true)
    (ca cb : Creds) (ra rb : String) :
    (clearAssumedCredentials (setAssumedCredentials cb rb
        (setAssumedCredentials ca ra (initState e)))).env = e ∧
    (setAssumedCredentials ca ra (initState e)).origCredentials = some e ∧
    (setAssumedCredentials cb rb
        (setAssumedCredentials ca ra (initState e))).origCredentials = some e := by
  obtain ⟨ak, sk, st, pr⟩ := e
  cases pr with
  | none => simp [truthy] at hp
  | some p =>
    simp only [truthy, Bool.not_eq_true'] at hp
    simp [setAssumedCredentials, clearAssumedCredentials, initState, truthy, hp]

/-- C2 witness: concrete run of the amended theorem. -/
theorem c2_double_assume_release_witness :
    (clearAssumedCredentials (setAssumedCredentials cX "rb"
        (setAssumedCredentials cW "ra" (initState envP)))).env = envP ∧
    (setAssumedCredentials cW "ra" (initState envP)).origCredentials = some envP ∧
    (setAssumedCredentials cX "rb"
        (setAssumedCredentials cW "ra" (initState envP))).origCredentials = some envP :=
  c2_double_assume_release_restores envP (by decide) cW cX "ra" "rb"

/-! Claim C3. -/

/-- C3 counterexample: at the boundary instant `now = expiration - 5 min`
(where the claim demands "expired"), `is_session_expired` answers
`False` and the per-request check keeps the credentials. -/
theorem c3_boundary_not_expired :
    (0 : Int) ≥ cW.expiration - graceSeconds ∧
    isSessionExpired 0 sW = false ∧
    (loadSessionCredentials 0 sW).sessionCreds = some cW := by
  refine ⟨by decide, by decide, by decide⟩

/-- C3 (amended): with credentials in the session, both
`is_session_expired` and the per-request check judge the session expired
exactly when `now > expiration - 5 minutes`, strictly — at the boundary
instant the credentials are still treated as valid. -/
theorem c3_expiry_predicate_strict (s : SMState) (c : Creds) (now : Int)
    (hc : s.sessionCreds = some c) :
    (isSessionExpired now s = true ↔ now > c.expiration - graceSeconds) ∧
    ((loadSessionCredentials now s).sessionCreds = none ↔
      now > c.expiration - graceSeconds) := by
  constructor
  · simp [isSessionExpired, hc]
  · constructor
    · intro h
      by_contra hexp
      rw [load_keeps_of_not_expired now s c hc hexp] at h
      exact Option.noConfusion h
    · exact load_clears_of_expired now s c hc

/-- C3 witness: concrete run of the amended theorem. -/
theorem c3_expiry_predicate_witness : isSessionExpired 301 sW = true :=
  (c3_expiry_predicate_strict sW cW 301 rfl).1.mpr (by decide)

/-! Claim C4. -/

theorem clear_env_accessKey (s : SMState) :
    (clearAssumedCredentials s).env.accessKey =
      match s.origCredentials with
      | some oc => oc.accessKey
      | none => none := by
  unfold clearAssumedCredentials
  cases s.origCredentials <;> cases s.appOrigProfile <;>
    simp [restoreVar_none] <;> split <;> rfl

theorem clear_env_secretKey (s : SMState) :
    (clearAssumedCredentials s).env.secretKey =
      match s.origCredentials with
      | some oc => oc.secretKey
      | none => none := by
  unfold clearAssumedCredentials
  cases s.origCredentials <;> cases s.appOrigProfile <;>
    simp [restoreVar_none] <;> split <;> rfl

theorem clear_env_sessionToken (s : SMState) :
    (clearAssumedCredentials s).env.sessionToken =
      match s.origCredentials with
      | some oc => oc.sessionToken
      | none => none := by
  unfold clearAssumedCredentials
  cases s.origCredentials <;> cases s.appOrigProfile <;>
    simp [restoreVar_none] <;> split <;> rfl

/-- C4 (amended): `clear_assumed_credentials` pops credentials and role,
restores the three credential variables from the `_original_credentials`
snapshot (unsetting them when no snapshot exists), restores
`AWS_PROFILE` from `app._original_aws_profile` (falling back to
`"default"` when nothing was recorded and no profile is set) — but the
snapshot itself is NOT cleared: it survives the release, so the next
`set_assumed_credentials` keeps the old snapshot instead of capturing a
fresh one. -/
theorem c4_clear_restores_and_keeps_snapshot (s : SMState) :
    (clearAssumedCredentials s).sessionCreds = none ∧
    (clearAssumedCredentials s).sessionRole = none ∧
    (clearAssumedCredentials s).origCredentials = s.origCredentials ∧
    ((clearAssumedCredentials s).env.accessKey =
      match s.origCredentials with
      | some oc => oc.accessKey
      | none => none) ∧
    ((clearAssumedCredentials s).env.secretKey =
      match s.origCredentials with
      | some oc => oc.secretKey
      | none => none) ∧
    ((clearAssumedCredentials s).env.sessionToken =
      match s.origCredentials with
      | some oc => oc.sessionToken
      | none => none) ∧
    (∀ q, s.appOrigProfile = some q → (clearAssumedCredentials s).env.profile = some q) ∧
    (s.appOrigProfile = none → s.origCredentials = none → s.env.profile = none →
      (clearAssumedCredentials s).env.profile = some "default") := by
  refine ⟨rfl, rfl, rfl, clear_env_accessKey s, clear_env_secretKey s,
    clear_env_sessionToken s, ?_, ?_⟩
  · intro q hq
    unfold clearAssumedCredentials
    rw [hq]
  · intro hap hoc hpr
    unfold clearAssumedCredentials
    rw [hap, hoc]
    simp [hpr]

/-- C4 witness: concrete run of the amended theorem. -/
theorem c4_clear_keeps_snapshot_witness :
    (clearAssumedCredentials (setAssumedCredentials cW "ra" (initState envP))).env.profile
      = some "p" :=
  (c4_clear_restores_and_keeps_snapshot
    (setAssumedCredentials cW "ra" (initState envP))).2.2.2.2.2.2.1 "p" (by decide)

/-- C4 counterexample: after a release, `_original_credentials` still
holds the old snapshot (the claim demands `None`), and a subsequent
`set_assumed_credentials` performed in a changed ambient context keeps
that stale snapshot instead of capturing a fresh one. -/
theorem c4_snapshot_not_cleared :
    (clearAssumedCredentials (setAssumedCredentials cW "ra" (initState envP))).origCredentials
      = some envP ∧
    (setAssumedCredentials cX "rb"
      { clearAssumedCredentials (setAssumedCredentials cW "ra" (initState envP)) with
        env := envQ }).origCredentials = some envP ∧
    some envP ≠ (none : Option Env) ∧ envP ≠ envQ := by
  refine ⟨by decide, by decide, by decide, by decide⟩

/-! Claim C5. -/

/-- C5: `_create_sts_client` restores all four ambient variables to
their pre-call values whether the body succeeded or failed: the
temporary clearing is reverted with finally-semantics. -/
theorem c5_sts_env_restored (e : Env) (succeeds : Bool) :
    (createStsClientRun e succeeds).2 = e := by
  obtain ⟨ak, sk, st, pr⟩ := e
  simp [createStsClientRun, clearedEnv, restoreVar_none]

/-! Helper lemmas about the configparser model. -/

theorem getOpt_setOpt_self (opts : List (String × String)) (k v d : String) :
    getOpt (setOpt opts k v) k d = v := by
  induction opts with
  | nil => simp [setOpt, getOpt]
  | cons q rest ih =>
    obtain ⟨k0, v0⟩ := q
    by_cases h : (k0 == k) = true
    · simp [setOpt, h, getOpt]
    · simp only [setOpt, h, Bool.false_eq_true, if_false]
      simpa [getOpt, List.find?_cons, h] using ih

theorem getOpt_setOpt_other (opts : List (String × String)) (k1 v k d : String)
    (h : (k1 == k) = false) : getOpt (setOpt opts k1 v) k d = getOpt opts k d := by
  induction opts with
  | nil => simp [setOpt, getOpt, h]
  | cons q rest ih =>
    obtain ⟨k0, v0⟩ := q
    by_cases h0 : (k0 == k1) = true
    · have hk0 : k0 = k1 := by simpa using h0
      subst hk0
      simp [setOpt, getOpt, h]
    · simp only [setOpt, h0, Bool.false_eq_true, if_false]
      by_cases hk : (k0 == k) = true
      · simp [getOpt, hk]
      · simpa [getOpt, List.find?_cons, hk] using ih

theorem hasOpt_setOpt_self (opts : List (String × String)) (k v : String) :
    hasOpt (setOpt opts k v) k = true := by
  induction opts with
  | nil => simp [setOpt, hasOpt]
  | cons q rest ih =>
    obtain ⟨k0, v0⟩ := q
    by_cases h : (k0 == k) = true
    · simp [setOpt, h, hasOpt]
    · simp only [setOpt, h, Bool.false_eq_true, if_false]
      simpa [hasOpt, h] using ih

theorem hasOpt_setOpt_other (opts : List (String × String)) (k1 v k : String)
    (h : (k1 == k) = false) : hasOpt (setOpt opts k1 v) k = hasOpt opts k := by
  induction opts with
  | nil => simp [setOpt, hasOpt, h]
  | cons q rest ih =>
    obtain ⟨k0, v0⟩ := q
    by_cases h0 : (k0 == k1) = true
    · have hk0 : k0 = k1 := by simpa using h0
      subst hk0
      simp [setOpt, hasOpt, h]
    · simp only [setOpt, h0, Bool.false_eq_true, if_false]
      have hr : hasOpt (setOpt rest k1 v) k = hasOpt rest k := ih
      simp only [hasOpt, List.any_cons] at hr ⊢
      rw [hr]

theorem getSection_cons (m : String) (opts : List (String × String)) (cf : ConfigFile)
    (n : String) :
    getSection ((m, opts) :: cf) n =
      if (m == n) = true then some opts else getSection cf n := by
  by_cases h : (m == n) = true <;> simp [getSection, List.find?_cons, h]

theorem getSection_none_of_not_hasSection (cf : ConfigFile) (n : String)
    (h : hasSection cf n = false) : getSection cf n = none := by
  induction cf with
  | nil => rfl
  | cons sec rest ih =>
    obtain ⟨m, opts⟩ := sec
    simp only [hasSection, List.any_cons, Bool.or_eq_false_iff] at h
    rw [getSection_cons, if_neg (by simp [h.1])]
    exact ih (by simpa [hasSection] using h.2)

theorem getSection_some_of_hasSection (cf : ConfigFile) (n : String)
    (h : hasSection cf n = true) : ∃ opts, getSection cf n = some opts := by
  induction cf with
  | nil => simp [hasSection] at h
  | cons sec rest ih =>
    obtain ⟨m, opts⟩ := sec
    by_cases hm : (m == n) = true
    · exact ⟨opts, by rw [getSection_cons, if_pos hm]⟩
    · simp only [hasSection, List.any_cons, hm, Bool.false_or] at h
      obtain ⟨o, ho⟩ := ih (by simpa [hasSection] using h)
      exact ⟨o, by rw [getSection_cons, if_neg hm]; exact ho⟩

theorem getSection_append_self (cf : ConfigFile) (n : String)
    (h : hasSection cf n = false) :
    getSection (cf ++ [(n, [])]) n = some [] := by
  induction cf with
  | nil => simp [getSection]
  | cons sec rest ih =>
    obtain ⟨m, opts⟩ := sec
    simp only [hasSection, List.any_cons, Bool.or_eq_false_iff] at h
    rw [List.cons_append, getSection_cons, if_neg (by simp [h.1])]
    exact ih (by simpa [hasSection] using h.2)

theorem getSection_addSectionIfAbsent_self (cf : ConfigFile) (n : String) :
    getSection (addSectionIfAbsent cf n) n = some ((getSection cf n).getD []) := by
  unfold addSectionIfAbsent
  by_cases h : hasSection cf n = true
  · rw [if_pos h]
    obtain ⟨opts, ho⟩ := getSection_some_of_hasSection cf n h
    rw [ho]
    rfl
  · rw [if_neg h, getSection_append_self cf n (by simpa using h),
      getSection_none_of_not_hasSection cf n (by simpa using h)]
    rfl

theorem getSection_setOptInFile_self (cf : ConfigFile) (n k v : String) :
    getSection (setOptInFile cf n k v) n =
      (getSection cf n).map (fun opts => setOpt opts k v) := by
  induction cf with
  | nil => rfl
  | cons sec rest ih =>
    obtain ⟨m, opts⟩ := sec
    by_cases h : (m == n) = true
    · rw [setOptInFile, if_pos h, getSection_cons, if_pos h, getSection_cons, if_pos h]
      rfl
    · rw [setOptInFile, if_neg h, getSection_cons, if_neg h, getSection_cons, if_neg h]
      exact ih

theorem find?_filter_of_keep {α : Type} (l : List α) (pk q : α → Bool)
    (h : ∀ x ∈ l, q x = true → pk x = true) :
    (l.filter pk).find? q = l.find? q := by
  induction l with
  | nil => rfl
  | cons a l ih =>
    have hrest : ∀ x ∈ l, q x = true → pk x = true :=
      fun x hx hqx => h x (List.mem_cons_of_mem a hx) hqx
    by_cases hq : q a = true
    · have hp := h a (List.mem_cons_self a l) hq
      rw [List.filter_cons_of_pos hp, List.find?_cons_of_pos _ hq, List.find?_cons_of_pos _ hq]
    · by_cases hp : pk a = true
      · rw [List.filter_cons_of_pos hp, List.find?_cons_of_neg _ hq,
          List.find?_cons_of_neg _ hq]
        exact ih hrest
      · rw [List.filter_cons_of_neg (by simpa using hp), List.find?_cons_of_neg _ hq]
        exact ih hrest

theorem getSection_filter_of_keep (cf : ConfigFile) (pk : String × List (String × String) → Bool)
    (n : String) (h : ∀ sec ∈ cf, (sec.1 == n) = true → pk sec = true) :
    getSection (cf.filter pk) n = getSection cf n := by
  unfold getSection
  rw [find?_filter_of_keep cf pk (fun sec => sec.1 == n) h]

/-! Shared analysis of a successful `switch_environment`. -/

theorem switch_success_spec (reg : Registry) (e : String) (envc : EnvConfig)
    (store : Option ConfigFile) (h : lookupEnv reg e = some envc) :
    (switchEnvironment reg e store).1 = true ∧
    ∃ cf opts, (switchEnvironment reg e store).2 = some cf ∧
      getSection cf "profile default" = some opts ∧
      getOpt opts "role_arn" "" = envc.roleArn ∧
      getOpt opts "region" "" = envc.region ∧
      getOpt opts "source_profile" "" = "infrrd-master" ∧
      getOpt opts "duration_seconds" "" = "3600" := by
  have hsw : switchEnvironment reg e store =
      (true,
        some ((setOptInFile (setOptInFile (setOptInFile (setOptInFile
          (addSectionIfAbsent (store.getD []) "profile default")
          "profile default" "role_arn" envc.roleArn)
          "profile default" "region" envc.region)
          "profile default" "source_profile" "infrrd-master")
          "profile default" "duration_seconds" "3600").filter
            (fun sec => !(sec.1.startsWith "profile " && sec.1 != "profile default")))) := by
    unfold switchEnvironment
    rw [h]
  rw [hsw]
  refine ⟨rfl, ?_⟩
  set opts0 := (getSection (store.getD []) "profile default").getD [] with hopts0
  set cf1 := addSectionIfAbsent (store.getD []) "profile default" with hcf1
  set cf2 := setOptInFile cf1 "profile default" "role_arn" envc.roleArn with hcf2
  set cf3 := setOptInFile cf2 "profile default" "region" envc.region with hcf3
  set cf4 := setOptInFile cf3 "profile default" "source_profile" "infrrd-master" with hcf4
  set cf5 := setOptInFile cf4 "profile default" "duration_seconds" "3600" with hcf5
  have h1 : getSection cf1 "profile default" = some opts0 :=
    getSection_addSectionIfAbsent_self (store.getD []) "profile default"
  have h2 : getSection cf2 "profile default" =
      some (setOpt opts0 "role_arn" envc.roleArn) := by
    rw [hcf2, getSection_setOptInFile_self, h1]
    rfl
  have h3 : getSection cf3 "profile default" =
      some (setOpt (setOpt opts0 "role_arn" envc.roleArn) "region" envc.region) := by
    rw [hcf3, getSection_setOptInFile_self, h2]
    rfl
  have h4 : getSection cf4 "profile default" =
      some (setOpt (setOpt (setOpt opts0 "role_arn" envc.roleArn) "region" envc.region)
        "source_profile" "infrrd-master") := by
    rw [hcf4, getSection_setOptInFile_self, h3]
    rfl
  have h5 : getSection cf5 "profile default" =
      some (setOpt (setOpt (setOpt (setOpt opts0 "role_arn" envc.roleArn)
        "region" envc.region) "source_profile" "infrrd-master")
        "duration_seconds" "3600") := by
    rw [hcf5, getSection_setOptInFile_self, h4]
    rfl
  have h6 : getSection (cf5.filter
      (fun sec => !(sec.1.startsWith "profile " && sec.1 != "profile default")))
      "profile default" =
      some (setOpt (setOpt (setOpt (setOpt opts0
        "role_arn" envc.roleArn) "region" envc.region)
        "source_profile" "infrrd-master") "duration_seconds" "3600") := by
    rw [getSection_filter_of_keep]
    · exact h5
    · intro sec _ hsec
      have hname : sec.1 = "profile default" := by simpa using hsec
      show (!(sec.1.startsWith "profile " && sec.1 != "profile default")) = true
      rw [hname]
      simp
  refine ⟨_, _, rfl, h6, ?_, ?_, ?_, ?_⟩
  · rw [getOpt_setOpt_other _ _ _ _ _ (by decide), getOpt_setOpt_other _ _ _ _ _ (by decide),
      getOpt_setOpt_other _ _ _ _ _ (by decide), getOpt_setOpt_self]
  · rw [getOpt_setOpt_other _ _ _ _ _ (by decide), getOpt_setOpt_other _ _ _ _ _ (by decide),
      getOpt_setOpt_self]
  · rw [getOpt_setOpt_other _ _ _ _ _ (by decide), getOpt_setOpt_self]
  · rw [getOpt_setOpt_self]

/-! Claim C6. -/

/-- C6: `switch_environment` on a name absent from the registry reports
failure (`False`) and leaves the persisted store untouched. -/
theorem c6_switch_missing_unchanged (reg : Registry) (name : String)
    (store : Option ConfigFile) (h : ∀ q ∈ reg, q.1 ≠ name) :
    switchEnvironment reg name store = (false, store) := by
  have hl : lookupEnv reg name = none := by
    unfold lookupEnv
    rw [List.find?_eq_none.mpr (fun x hx => by simp [h x hx])]
  unfold switchEnvironment
  rw [hl]

/-- C6 witness: concrete run of the theorem. -/
theorem c6_switch_missing_witness :
    switchEnvironment regW "missing" (some cfW) = (false, some cfW) :=
  c6_switch_missing_unchanged regW "missing" (some cfW) (by decide)

/-! Claim C7. -/

/-- C7: after a successful `switch_environment(e)` where `e` is the
first registry entry carrying its (role_arn, region) pair,
`get_current_environment` returns `e`; and when the current default
binding's pair matches no configured environment,
`get_current_environment` reports `None` (Unknown). -/
theorem c7_switch_then_current :
    (∀ (reg : Registry) (e : String) (envc : EnvConfig) (store : Option ConfigFile),
      lookupEnv reg e = some envc →
      (reg.find? (fun q => q.2.roleArn == envc.roleArn && q.2.region == envc.region)).map
        Prod.fst = some e →
      (switchEnvironment reg e store).1 = true ∧
      getCurrentEnvironment reg (switchEnvironment reg e store).2 = some e) ∧
    (∀ (reg : Registry) (cf : ConfigFile) (opts : List (String × String)),
      getSection cf "profile default" = some opts →
      reg.find? (fun q => q.2.roleArn == getOpt opts "role_arn" "" &&
        q.2.region == getOpt opts "region" "") = none →
      getCurrentEnvironment reg (some cf) = none) := by
  constructor
  · intro reg e envc store hmem hfirst
    obtain ⟨hok, cf, opts, hcf, hsec, harn, hreg, _, _⟩ := switch_success_spec reg e envc store hmem
    refine ⟨hok, ?_⟩
    rw [hcf]
    simp only [getCurrentEnvironment, hsec, harn, hreg]
    cases hf : reg.find? (fun q => q.2.roleArn == envc.roleArn && q.2.region == envc.region) with
    | none => rw [hf] at hfirst; exact Option.noConfusion hfirst
    | some entry =>
      rw [hf] at hfirst
      simpa using hfirst
  · intro reg cf opts hsec hfind
    simp only [getCurrentEnvironment, hsec, hfind]

/-- C7 witness: concrete run of the theorem's first part. -/
theorem c7_switch_then_current_witness :
    getCurrentEnvironment regW (switchEnvironment regW "dev" (some cfW)).2 = some "dev" :=
  (c7_switch_then_current.1 regW "dev" envcDev (some cfW) (by decide) (by decide)).2

/-! Claim C10. -/

/-- C10: a successful `switch_environment(e)` always writes
`source_profile = "infrrd-master"` and `duration_seconds = "3600"` into
the default binding, regardless of the rest of the registry record;
only `role_arn` and `region` come from the record. -/
theorem c10_switch_writes_fixed_binding (reg : Registry) (e : String) (envc : EnvConfig)
    (store : Option ConfigFile) (h : lookupEnv reg e = some envc) :
    (switchEnvironment reg e store).1 = true ∧
    ∃ cf opts, (switchEnvironment reg e store).2 = some cf ∧
      getSection cf "profile default" = some opts ∧
      getOpt opts "source_profile" "" = "infrrd-master" ∧
      getOpt opts "duration_seconds" "" = "3600" ∧
      getOpt opts "role_arn" "" = envc.roleArn ∧
      getOpt opts "region" "" = envc.region := by
  obtain ⟨hok, cf, opts, hcf, hsec, harn, hreg, hsp, hds⟩ := switch_success_spec reg e envc store h
  exact ⟨hok, cf, opts, hcf, hsec, hsp, hds, harn, hreg⟩

/-- C10 witness: concrete run of the theorem. -/
theorem c10_switch_fixed_binding_witness :
    (switchEnvironment regW "dev" none).1 = true :=
  (c10_switch_writes_fixed_binding regW "dev" envcDev none (by decide)).1

/-! Claims C8 and C9. -/

theorem hasStoredToken_eq (store : Option ConfigFile) (name : String) :
    hasOpt ((getSection (store.getD []) name).getD []) "aws_session_token" =
      hasStoredToken store name := by
  cases store with
  | none => rfl
  | some cf =>
    cases hs : getSection cf name with
    | none => simp [hasStoredToken, hs, hasOpt]
    | some opts => simp [hasStoredToken, hs]

theorem getCreds_of_section (cf : ConfigFile) (name : String)
    (opts : List (String × String))
    (hsec : getSection cf name = some opts)
    (hak : hasOpt opts "aws_access_key_id" = true)
    (hsk : hasOpt opts "aws_secret_access_key" = true) :
    getCredentialsFromFile false (some cf) name =
      some { accessKeyId := getOpt opts "aws_access_key_id" ""
             secretAccessKey := getOpt opts "aws_secret_access_key" ""
             sessionToken :=
               if hasOpt opts "aws_session_token" = true
               then some (getOpt opts "aws_session_token" "") else none } := by
  simp only [getCredentialsFromFile, hsec, hak, hsk, Bool.and_self]
  by_cases ht : hasOpt opts "aws_session_token" = true <;> simp [ht]

/-- C8 (amended): saving then reading a profile returns exactly the
saved fields — the session token field present iff a non-empty token was
supplied — provided the profile did not already carry a stored session
token when none is supplied (a stale token persists), and the external
STS validity probe does not report a present token expired. -/
theorem c8_saved_profile_round_trip (store : Option ConfigFile)
    (name accessKey secretKey : String) (tok : Option String)
    (h : tokenTruthy tok = true ∨ hasStoredToken store name = false) :
    getCredentialsFromFile false (saveCredentials store name accessKey secretKey tok).2 name =
      some { accessKeyId := accessKey, secretAccessKey := secretKey,
             sessionToken := if tokenTruthy tok = true then tok else none } := by
  have h1 : getSection (addSectionIfAbsent (store.getD []) name) name =
      some ((getSection (store.getD []) name).getD []) :=
    getSection_addSectionIfAbsent_self (store.getD []) name
  have h2 : getSection (setOptInFile (addSectionIfAbsent (store.getD []) name)
        name "aws_access_key_id" accessKey) name =
      some (setOpt ((getSection (store.getD []) name).getD [])
        "aws_access_key_id" accessKey) := by
    rw [getSection_setOptInFile_self, h1]
    rfl
  have h3 : getSection (setOptInFile (setOptInFile (addSectionIfAbsent (store.getD []) name)
        name "aws_access_key_id" accessKey) name "aws_secret_access_key" secretKey) name =
      some (setOpt (setOpt ((getSection (store.getD []) name).getD [])
        "aws_access_key_id" accessKey) "aws_secret_access_key" secretKey) := by
    rw [getSection_setOptInFile_self, h2]
    rfl
  have hak3 : hasOpt (setOpt (setOpt ((getSection (store.getD []) name).getD [])
      "aws_access_key_id" accessKey) "aws_secret_access_key" secretKey)
      "aws_access_key_id" = true := by
    rw [hasOpt_setOpt_other _ _ _ _ (by decide), hasOpt_setOpt_self]
  have hsk3 : hasOpt (setOpt (setOpt ((getSection (store.getD []) name).getD [])
      "aws_access_key_id" accessKey) "aws_secret_access_key" secretKey)
      "aws_secret_access_key" = true := hasOpt_setOpt_self _ _ _
  have hgak3 : getOpt (setOpt (setOpt ((getSection (store.getD []) name).getD [])
      "aws_access_key_id" accessKey) "aws_secret_access_key" secretKey)
      "aws_access_key_id" "" = accessKey := by
    rw [getOpt_setOpt_other _ _ _ _ _ (by decide), getOpt_setOpt_self]
  have hgsk3 : getOpt (setOpt (setOpt ((getSection (store.getD []) name).getD [])
      "aws_access_key_id" accessKey) "aws_secret_access_key" secretKey)
      "aws_secret_access_key" "" = secretKey := getOpt_setOpt_self _ _ _ _
  have htok3 : hasOpt (setOpt (setOpt ((getSection (store.getD []) name).getD [])
      "aws_access_key_id" accessKey) "aws_secret_access_key" secretKey)
      "aws_session_token" = hasStoredToken store name := by
    rw [hasOpt_setOpt_other _ _ _ _ (by decide), hasOpt_setOpt_other _ _ _ _ (by decide),
      hasStoredToken_eq]
  cases tok with
  | none =>
    have hst : hasStoredToken store name = false := by
      cases h with
      | inl hl => exact absurd hl (by simp [tokenTruthy])
      | inr hr => exact hr
    have hsave : (saveCredentials store name accessKey secretKey none).2 =
        some (setOptInFile (setOptInFile (addSectionIfAbsent (store.getD []) name)
          name "aws_access_key_id" accessKey) name "aws_secret_access_key" secretKey) := rfl
    rw [hsave, getCreds_of_section _ name _ h3 hak3 hsk3, hgak3, hgsk3]
    rw [htok3, hst]
    simp [tokenTruthy]
  | some t =>
    by_cases ht : t.isEmpty = true
    · have hst : hasStoredToken store name = false := by
        cases h with
        | inl hl => simp [tokenTruthy, ht] at hl
        | inr hr => exact hr
      have hsave : (saveCredentials store name accessKey secretKey (some t)).2 =
          some (setOptInFile (setOptInFile (addSectionIfAbsent (store.getD []) name)
            name "aws_access_key_id" accessKey) name "aws_secret_access_key" secretKey) := by
        simp only [saveCredentials, ht, if_true]
      rw [hsave, getCreds_of_section _ name _ h3 hak3 hsk3, hgak3, hgsk3]
      rw [htok3, hst]
      simp [tokenTruthy, ht]
    · have hsave : (saveCredentials store name accessKey secretKey (some t)).2 =
          some (setOptInFile (setOptInFile (setOptInFile
            (addSectionIfAbsent (store.getD []) name)
            name "aws_access_key_id" accessKey) name "aws_secret_access_key" secretKey)
            name "aws_session_token" t) := by
        simp only [saveCredentials, ht, Bool.false_eq_true, if_false]
      have h4 : getSection (setOptInFile (setOptInFile (setOptInFile
            (addSectionIfAbsent (store.getD []) name)
            name "aws_access_key_id" accessKey) name "aws_secret_access_key" secretKey)
            name "aws_session_token" t) name =
          some (setOpt (setOpt (setOpt ((getSection (store.getD []) name).getD [])
            "aws_access_key_id" accessKey) "aws_secret_access_key" secretKey)
            "aws_session_token" t) := by
        rw [getSection_setOptInFile_self, h3]
        rfl
      have hak4 : hasOpt (setOpt (setOpt (setOpt ((getSection (store.getD []) name).getD [])
          "aws_access_key_id" accessKey) "aws_secret_access_key" secretKey)
          "aws_session_token" t) "aws_access_key_id" = true := by
        rw [hasOpt_setOpt_other _ _ _ _ (by decide)]
        exact hak3
      have hsk4 : hasOpt (setOpt (setOpt (setOpt ((getSection (store.getD []) name).getD [])
          "aws_access_key_id" accessKey) "aws_secret_access_key" secretKey)
          "aws_session_token" t) "aws_secret_access_key" = true := by
        rw [hasOpt_setOpt_other _ _ _ _ (by decide)]
        exact hsk3
      have htok4 : hasOpt (setOpt (setOpt (setOpt ((getSection (store.getD []) name).getD [])
          "aws_access_key_id" accessKey) "aws_secret_access_key" secretKey)
          "aws_session_token" t) "aws_session_token" = true := hasOpt_setOpt_self _ _ _
      have hgak4 : getOpt (setOpt (setOpt (setOpt ((getSection (store.getD []) name).getD [])
          "aws_access_key_id" accessKey) "aws_secret_access_key" secretKey)
          "aws_session_token" t) "aws_access_key_id" "" = accessKey := by
        rw [getOpt_setOpt_other _ _ _ _ _ (by decide)]
        exact hgak3
      have hgsk4 : getOpt (setOpt (setOpt (setOpt ((getSection (store.getD []) name).getD [])
          "aws_access_key_id" accessKey) "aws_secret_access_key" secretKey)
          "aws_session_token" t) "aws_secret_access_key" "" = secretKey := by
        rw [getOpt_setOpt_other _ _ _ _ _ (by decide)]
        exact hgsk3
      have hgtok4 : getOpt (setOpt (setOpt (setOpt ((getSection (store.getD []) name).getD [])
          "aws_access_key_id" accessKey) "aws_secret_access_key" secretKey)
          "aws_session_token" t) "aws_session_token" "" = t := getOpt_setOpt_self _ _ _ _
      rw [hsave, getCreds_of_section _ name _ h4 hak4 hsk4, hgak4, hgsk4, htok4, hgtok4]
      simp [tokenTruthy, ht]

/-- C8 witness: concrete run of the amended theorem. -/
theorem c8_round_trip_witness :
    getCredentialsFromFile false
      (saveCredentials none "p" "KEY" "SECRET" (some "NT")).2 "p" =
      some { accessKeyId := "KEY", secretAccessKey := "SECRET",
             sessionToken := some "NT" } := by
  have h := c8_saved_profile_round_trip none "p" "KEY" "SECRET" (some "NT")
    (Or.inl (by decide))
  simpa [tokenTruthy] using h

/-- C8 counterexample: overwriting an existing profile that carries a
stored session token with long-term credentials (no token supplied)
leaves the stale token in place, so the read-back reports a
session token although none was saved. -/
theorem c8_stale_token_read_back :
    tokenTruthy none = false ∧
    getCredentialsFromFile false
      (saveCredentials (some [("p", [("aws_access_key_id", "OLDK"),
        ("aws_secret_access_key", "OLDS"), ("aws_session_token", "OLDTOK")])])
        "p" "K" "S" none).2 "p" =
      some { accessKeyId := "K", secretAccessKey := "S",
             sessionToken := some "OLDTOK" } := by
  refine ⟨rfl, by decide⟩

/-- C9 counterexample: removing a profile that is absent (from a missing
file, or from a file without that section) reports the very same
outcome (`True`) as removing an existing profile — there is no distinct
NotFound outcome. -/
theorem c9_missing_profile_reports_success :
    (removeProfile none "missing").1 = true ∧
    (removeProfile (some [("other", [("a", "b")])]) "missing").1 = true ∧
    (removeProfile (some [("missing", [("a", "b")])]) "missing").1 = true := by
  refine ⟨rfl, by decide, by decide⟩

theorem hasSection_removeSection (cf : ConfigFile) (n : String) :
    hasSection (removeSection cf n) n = false := by
  induction cf with
  | nil => rfl
  | cons sec rest ih =>
    obtain ⟨m, opts⟩ := sec
    by_cases h : (m == n) = true
    · simp only [removeSection, List.filter_cons, h, Bool.not_true, Bool.false_eq_true,
        if_false]
      exact ih
    · have ih1 : (List.any (removeSection rest n) fun sec => sec.1 == n) = false := ih
      simp [removeSection, List.filter_cons, h, hasSection, List.any_cons, ih1]

/-- C9 (amended): `remove_profile` reports success (`True`) whether or
not the profile or the credentials file exists; a missing profile
leaves the store untouched, and after the call the named section is
gone in any case.  Only an I/O exception yields `False`. -/
theorem c9_remove_reports_success (store : Option ConfigFile) (name : String) :
    (removeProfile store name).1 = true ∧
    (hasSection (store.getD []) name = false → (removeProfile store name).2 = store) ∧
    (∀ cf, (removeProfile store name).2 = some cf → hasSection cf name = false) := by
  cases store with
  | none => exact ⟨rfl, fun _ => rfl, fun cf hcf => Option.noConfusion hcf⟩
  | some cf =>
    by_cases h : hasSection cf name = true
    · refine ⟨?_, ?_, ?_⟩
      · simp [removeProfile, h]
      · intro hfalse
        exact absurd h (by simp [Option.getD] at hfalse; simp [hfalse])
      · intro cf1 hcf1
        simp only [removeProfile, h, if_true] at hcf1
        rw [← Option.some_inj.mp hcf1]
        exact hasSection_removeSection cf name
    · refine ⟨?_, ?_, ?_⟩
      · simp [removeProfile, h]
      · intro _
        simp [removeProfile, h]
      · intro cf1 hcf1
        simp only [removeProfile, h, Bool.false_eq_true, if_false] at hcf1
        rw [← Option.some_inj.mp hcf1]
        simpa using h

/-- C9 witness: concrete run of the amended theorem. -/
theorem c9_remove_success_witness :
    (removeProfile (some [("a", [("x", "y")])]) "b").2 = some [("a", [("x", "y")])] :=
  (c9_remove_reports_success (some [("a", [("x", "y")])]) "b").2.1 (by decide)

end AwsProfileSwitcher
